import Mathlib

/-!
Shallow embedding of the tarantula-ir data logger firmware
(`src/main/main.ino` and `src/calibrate/calibrate.ino`).

The firmware is a single-threaded Arduino sketch: `setup()` runs a
fatal-halt startup self-test (RTC probe, IR sensor init, uSD init,
log-file accessibility check) and writes a CSV header to `datalog.csv`
when the file does not yet exist; `loop()` then repeatedly formats a
`time,object_temp,ambient_temp` record, blocks until the uSD card is
present, appends the record in one open/write/close cycle, and signals
append failures on an indicator LED.

The embedding models:
- the RTC timestamp rendering `print_time` (unpadded decimal fields);
- the filesystem as the existence flag and line list of `datalog.csv`;
- `setup` as a function of the peripheral-health oracles, returning the
  resulting halt/ready state, LED level and filesystem;
- one `loop` iteration as a function of the card-presence oracle and the
  append-open outcome, returning the new filesystem and the trace of
  observable events (serial prints, LED writes, delays, file ops);
- the `strcpy` into the fixed 32-byte `data_str` buffer;
- the peripheral accesses (read vs write) performed by the main sketch
  and by the one-time calibration sketch.

Hardware I/O successes are oracle parameters. Within a single `setup`
run the two `SD.open("datalog.csv", FILE_WRITE)` calls (header write and
accessibility check) see the same medium and are modelled by one
`writable` flag.
-/

namespace Tarantula

/-! ## Decimal rendering (Arduino `String(int)`) -/

/-- ASCII digit character for `n < 10`. -/
def digitChar (n : Nat) : Char := Char.ofNat (48 + n)

/-- Fuel-driven unpadded decimal rendering of a natural number:
most significant digit first, no leading zeros (except `0` itself).
`fuel ≥ 1` suffices for any `n ≤ 9`, and `fuel ≥ n` for any `n`. -/
def natStrGo : Nat → Nat → List Char → List Char
  | 0, _, acc => acc
  | fuel + 1, n, acc =>
    if n < 10 then digitChar n :: acc
    else natStrGo fuel (n / 10) (digitChar (n % 10) :: acc)

/-- Arduino `String(int)` for a non-negative value: unpadded decimal. -/
def natStr (n : Nat) : String := ⟨natStrGo (n + 1) n []⟩

/-! ## Timestamp and `print_time` -/

/-- The fields read from the DS3231 RTC for one timestamp. -/
structure Timestamp where
  year : Nat
  month : Nat
  day : Nat
  hour : Nat
  minute : Nat
  second : Nat
deriving DecidableEq, Repr

/-- The ranges the DS3231 clock registers can report:
2-digit year, calendar month/day, 24h time. -/
def validTimestamp (t : Timestamp) : Prop :=
  t.year ≤ 99 ∧ 1 ≤ t.month ∧ t.month ≤ 12 ∧ 1 ≤ t.day ∧ t.day ≤ 31 ∧
  t.hour ≤ 23 ∧ t.minute ≤ 59 ∧ t.second ≤ 59

instance (t : Timestamp) : Decidable (validTimestamp t) := by
  unfold validTimestamp; infer_instance

/-- The function `print_time` from `main.ino`: successive `String`
concatenation of
`"20" + year`, `"-" + month`, `"-" + day`, `" " + hour`, `":" + minute`,
`":" + second`, each field rendered by Arduino `String(int)` with no
zero-padding. -/
def print_time (t : Timestamp) : String :=
  let date := "20" ++ natStr t.year
  let date := date ++ "-" ++ natStr t.month
  let date := date ++ "-" ++ natStr t.day
  let date := date ++ " "
  let date := date ++ natStr t.hour
  let date := date ++ ":" ++ natStr t.minute
  let date := date ++ ":" ++ natStr t.second
  date

/-! ## Filesystem model for `datalog.csv` -/

/-- The CSV header from `main.ino` (`CSV_HEADER`). -/
def CSV_HEADER : String := "Time (PET),Object Temperature,Ambient Temperature"

/-- The state of `datalog.csv` on the uSD card: whether the file exists
(`SD.exists`) and its list of lines. -/
structure FS where
  fileExists : Bool
  lines : List String
deriving DecidableEq, Repr

/-- The empty card: `datalog.csv` not yet created. -/
def FS.init : FS := ⟨false, []⟩

/-- One `SD.open("datalog.csv", FILE_WRITE)` / `println(line)` / `close()`
cycle: `FILE_WRITE` opens at end of file (append), so a successful open
followed by `println` adds exactly one line at the end; a failed open
leaves the file untouched (`println`/`close` on an invalid handle are
no-ops). -/
def appendRecord (fs : FS) (openOk : Bool) (line : String) : FS :=
  if openOk then { fileExists := true, lines := fs.lines ++ [line] } else fs

/-! ## Startup (`setup()` in `main.ino`) -/

/-- Where `setup()` ends up: one `while(true);` halt per failed check, or
ready to enter `loop()`. -/
inductive SetupResult
  | haltClock
  | haltSensor
  | haltMedium
  | haltFile
  | ready
deriving DecidableEq, Repr

/-- Outcome of one `setup()` run: the final control state, the indicator
LED level when that state is reached (the LED is driven HIGH at the top
of `setup` and LOW only after all checks pass), whether the header line
was written during this run, and the resulting filesystem. -/
structure SetupOut where
  result : SetupResult
  led : Bool
  wroteHeader : Bool
  fs : FS
deriving DecidableEq, Repr

/-- The header-writing step of `setup()`: if `!SD.exists("datalog.csv")`,
open it `FILE_WRITE` (creating it when the medium is writable), print
`CSV_HEADER`, close. A failed open creates nothing and writes nothing. -/
def ensureHeader (writable : Bool) (fs : FS) : FS :=
  if fs.fileExists then fs
  else if writable then { fileExists := true, lines := [CSV_HEADER] } else fs

/-- The function `setup()` from `main.ino` as a function of the
peripheral oracles:
`clockTemp` is the DS3231 `getTemperature()` reading, `sensorOk` the
result of `mlx.begin()`, `mediumOk` the result of `SD.begin(CS)`, and
`writable` whether `SD.open("datalog.csv", FILE_WRITE)` succeeds during
this run (both the header-write open and the accessibility-check open
see the same medium within the one run). Each failed check enters a
`while(true);` halt with the LED still HIGH; after all checks pass the
sketch delays 1 s and drives the LED LOW. -/
def setup (clockTemp : ℚ) (sensorOk mediumOk writable : Bool) (fs : FS) :
    SetupOut :=
  if clockTemp ≤ -9999 then ⟨.haltClock, true, false, fs⟩
  else if !sensorOk then ⟨.haltSensor, true, false, fs⟩
  else if !mediumOk then ⟨.haltMedium, true, false, fs⟩
  else
    let wrote := !fs.fileExists && writable
    let fs1 := ensureHeader writable fs
    if !writable then ⟨.haltFile, true, wrote, fs1⟩
    else ⟨.ready, false, wrote, fs1⟩

/-- After `setup`, the device either enters `loop()` (ready) or spins in
`while(true);` forever: a halted device contributes no further
observable events. -/
def postSetupTrace {α : Type} (o : SetupOut) (loopEvents : List α) : List α :=
  if o.result = .ready then loopEvents else []

/-! ## Steady-state loop (`loop()` in `main.ino`) -/

/-- Observable events emitted by one `loop()` iteration: serial prints,
LED writes, `delay(ms)` calls, and file operations on `datalog.csv`. -/
inductive Ev
  | serial (s : String)
  | ledOn
  | ledOff
  | delayMs (ms : Nat)
  | fileOpen
  | fileWrite (line : String)
  | fileClose
deriving DecidableEq, Repr

/-- LED level after a list of events, given the level before. -/
def ledAfter (start : Bool) : List Ev → Bool
  | [] => start
  | .ledOn :: evs => ledAfter true evs
  | .ledOff :: evs => ledAfter false evs
  | _ :: evs => ledAfter start evs

/-- The record line built in `loop()`:
`data = time + "," + object_temp + "," + ambient_temp`. -/
def record (time objectTemp ambientTemp : String) : String :=
  time ++ "," ++ objectTemp ++ "," ++ ambientTemp

/-- The `while (!SD.begin(CS))` presence loop: poll the card-presence
oracle at successive attempts; each failed check prints a diagnostic and
delays 1 s. `fuel` bounds how many checks we observe (the source loop is
unbounded); the result is the index of the first successful check
together with the events of the failed checks, or `none` when no check
within `fuel` succeeded (the device is still waiting, not halted). -/
def waitForMedium (present : Nat → Bool) : Nat → Nat → Option (Nat × List Ev)
  | 0, _ => none
  | fuel + 1, i =>
    if present i then some (i, [])
    else
      (waitForMedium present fuel (i + 1)).map
        (fun r => (r.1, Ev.serial "No uSD card detected!" :: Ev.delayMs 1000 :: r.2))

/-- The events of `k` failed presence checks. -/
def mediumWaitTrace (k : Nat) : List Ev :=
  (List.replicate k [Ev.serial "No uSD card detected!", Ev.delayMs 1000]).flatten

/-- The append step of `loop()`: `SD.open("datalog.csv", FILE_WRITE)`;
on a valid handle, `println(line)` then a confirmation print; otherwise
a diagnostic print and the indicator failure signal
(HIGH, 200 ms, LOW, 200 ms, HIGH, 200 ms, LOW); in both branches
`datalog.close()` runs afterwards. Returns the new filesystem and the
events emitted. -/
def appendPhase (fs : FS) (openOk : Bool) (line : String) : FS × List Ev :=
  if openOk then
    (appendRecord fs true line,
      [Ev.fileOpen, Ev.fileWrite line, Ev.serial "wrote to datalog.csv",
        Ev.fileClose])
  else
    (fs,
      [Ev.fileOpen, Ev.serial "Could not open datalog.csv!",
        Ev.ledOn, Ev.delayMs 200, Ev.ledOff, Ev.delayMs 200,
        Ev.ledOn, Ev.delayMs 200, Ev.ledOff,
        Ev.fileClose])

/-- One full `loop()` iteration: build the record line from the clock and
sensor readings, print it to serial, block in the presence loop, run the
append step, then `delay(60000)`. Returns `none` while still blocked in
the presence loop (no check within `fuel` succeeded), else the new
filesystem and the iteration's events. The `data_str` buffer through
which the record passes holds the whole NUL-terminated record (its
bounds are the subject of `strcpyWrites`/`bufContents`), so the printed
and appended line is the record itself. -/
def loopIteration (fs : FS) (t : Timestamp) (objectTemp ambientTemp : String)
    (present : Nat → Bool) (fuel : Nat) (openOk : Bool) :
    Option (FS × List Ev) :=
  let data := record (print_time t) objectTemp ambientTemp
  match waitForMedium present fuel 0 with
  | none => none
  | some (_, waitEvs) =>
    let (fs2, apEvs) := appendPhase fs openOk data
    some (fs2, Ev.serial data :: (waitEvs ++ apEvs ++ [Ev.delayMs 60000]))

/-! ## The `data_str` stack buffer and `strcpy` -/

/-- The size of the `char data_str[32]` stack buffer in `loop()`. -/
def BUF_LEN : Nat := 32

/-- Bytes written by `strcpy(data_str, data.c_str())`: every character of
`data` plus the NUL terminator. All characters produced by the sketch
are ASCII, so Lean character count equals byte count. -/
def strcpyWrites (data : String) : Nat := data.length + 1

/-- The copy stays inside `data_str`'s 32 bytes. -/
def strcpyInBufBounds (data : String) : Prop := strcpyWrites data ≤ BUF_LEN

instance (data : String) : Decidable (strcpyInBufBounds data) := by
  unfold strcpyInBufBounds; infer_instance

/-- The string held by `data_str` after the copy, when the copy stayed in
bounds; `none` models the out-of-bounds write (undefined behavior). -/
def bufContents (data : String) : Option String :=
  if strcpyWrites data ≤ BUF_LEN then some data else none

/-- Modelled from the spec: temperatures are rendered by the default
Arduino string conversion of a floating-point value, which prints the
sign, the integer part in decimal, a point, and exactly two fraction
digits (`String(double)` with its default 2-decimal precision); the
value is represented here as sign, integer part and hundredths. -/
def floatStr (neg : Bool) (intPart hundredths : Nat) : String :=
  (if neg then "-" else "") ++ natStr intPart ++ "." ++
    String.mk [digitChar (hundredths / 10), digitChar (hundredths % 10)]

/-! ## Peripheral accesses of the two sketches -/

/-- The two shared-bus peripherals the claims distinguish. -/
inductive Periph
  | clock
  | sensor
deriving DecidableEq, Repr

/-- Whether an operation reads peripheral state or modifies its
configuration. -/
inductive Access
  | read
  | write
deriving DecidableEq, Repr

/-- One peripheral operation: which peripheral, read or write, and the
library call performed. -/
structure POp where
  periph : Periph
  access : Access
  call : String
deriving DecidableEq, Repr

/-- The clock reads performed by one `print_time()` call
(`rtc.getYear/getMonth/getDate/getHour/getMinute/getSecond`). -/
def printTimePeriphOps : List POp :=
  [⟨.clock, .read, "getYear"⟩, ⟨.clock, .read, "getMonth"⟩,
    ⟨.clock, .read, "getDate"⟩, ⟨.clock, .read, "getHour"⟩,
    ⟨.clock, .read, "getMinute"⟩, ⟨.clock, .read, "getSecond"⟩]

/-- Clock and sensor operations of `setup()` in `main.ino`, in program
order: the temperature health probe, the startup time print, the sensor
initialization probe and the emissivity read. -/
def mainSetupPeriphOps : List POp :=
  ⟨.clock, .read, "getTemperature"⟩ ::
    (printTimePeriphOps ++
      [⟨.sensor, .read, "begin"⟩, ⟨.sensor, .read, "readEmissivity"⟩])

/-- Clock and sensor operations of one `loop()` iteration in `main.ino`:
the timestamp reads and the two temperature reads. -/
def mainLoopPeriphOps : List POp :=
  printTimePeriphOps ++
    [⟨.sensor, .read, "readAmbientTempC"⟩,
      ⟨.sensor, .read, "readObjectTempC"⟩]

/-- Clock and sensor operations of `setup()` in `calibrate.ino`: the
one-time calibration writes the clock mode, the full date/time, and the
sensor emissivity. -/
def calibratePeriphOps : List POp :=
  [⟨.clock, .write, "setClockMode"⟩, ⟨.clock, .write, "setYear"⟩,
    ⟨.clock, .write, "setMonth"⟩, ⟨.clock, .write, "setDate"⟩,
    ⟨.clock, .write, "setHour"⟩, ⟨.clock, .write, "setMinute"⟩,
    ⟨.clock, .write, "setSecond"⟩, ⟨.sensor, .read, "begin"⟩,
    ⟨.sensor, .write, "writeEmissivity"⟩]

/-! ## File states reachable over the lifetime of one medium -/

/-- Header invariant on the filesystem: while `datalog.csv` does not
exist it has no lines; once it exists, its first line is the CSV header
and no later line equals the header. -/
def headerInv (fs : FS) : Prop :=
  if fs.fileExists then
    ∃ ds, fs.lines = CSV_HEADER :: ds ∧ ∀ l ∈ ds, l ≠ CSV_HEADER
  else fs.lines = []

/-- The file states the device can produce over the lifetime of a single
medium, across arbitrarily many power cycles. The flag records whether
the device is currently in the steady-state loop: `loop()` iterations
happen only after a `setup()` run that passed every check, and a power
cycle can interrupt the device in any state. Each iteration appends one
formatted record line (or nothing, when the append-mode open failed). -/
inductive Reach : FS → Bool → Prop
  | init : Reach FS.init false
  | powerCycleReady (ct : ℚ) (sOk mOk w : Bool) {fs : FS} {b : Bool} :
      Reach fs b → (setup ct sOk mOk w fs).result = .ready →
      Reach (setup ct sOk mOk w fs).fs true
  | powerCycleHalt (ct : ℚ) (sOk mOk w : Bool) {fs : FS} {b : Bool} :
      Reach fs b → (setup ct sOk mOk w fs).result ≠ .ready →
      Reach (setup ct sOk mOk w fs).fs false
  | logIteration (openOk : Bool) (t : Timestamp) (objT ambT : String)
      {fs : FS} :
      Reach fs true →
      Reach (appendRecord fs openOk (record (print_time t) objT ambT)) true

/-! # Helper lemmas -/

theorem natStr_length_lt10 {n : Nat} (h : n < 10) : (natStr n).length = 1 := by
  unfold natStr natStrGo
  simp [h, String.length]

theorem natStr_length_ge10 {n : Nat} (h10 : 10 ≤ n) (h100 : n < 100) :
    (natStr n).length = 2 := by
  have hn : ¬ n < 10 := by omega
  have hdiv : n / 10 < 10 := by omega
  have hfuel : ∃ f, n + 1 = f + 1 + 1 := ⟨n - 1, by omega⟩
  obtain ⟨f, hf⟩ := hfuel
  unfold natStr
  rw [hf]
  unfold natStrGo
  simp only [hn, if_false]
  have hf1 : ∃ g, f + 1 = g + 1 := ⟨f, rfl⟩
  obtain ⟨g, hg⟩ := hf1
  rw [hg]
  unfold natStrGo
  simp [hdiv, String.length]

theorem natStr_length_le99 {n : Nat} (h : n ≤ 99) :
    (natStr n).length = if n < 10 then 1 else 2 := by
  by_cases h10 : n < 10
  · rw [if_pos h10]; exact natStr_length_lt10 h10
  · rw [if_neg h10]; exact natStr_length_ge10 (by omega) (by omega)

theorem waitForMedium_some_present {present : Nat → Bool} :
    ∀ {fuel i k : Nat} {evs : List Ev},
      waitForMedium present fuel i = some (k, evs) → present k = true := by
  intro fuel
  induction fuel with
  | zero =>
    intro i k evs h
    simp [waitForMedium] at h
  | succ f ih =>
    intro i k evs h
    rw [waitForMedium] at h
    by_cases hp : present i
    · rw [if_pos hp] at h
      simp only [Option.some.injEq, Prod.mk.injEq] at h
      exact h.1 ▸ hp
    · rw [if_neg hp] at h
      rw [Option.map_eq_some'] at h
      obtain ⟨⟨k', evs'⟩, hw, hmk⟩ := h
      simp only [Prod.mk.injEq] at hmk
      exact hmk.1 ▸ ih hw

theorem waitForMedium_exit {present : Nat → Bool} {k : Nat}
    (hk : present k = true) (hmin : ∀ j, j < k → present j = false) :
    ∀ fuel i, i ≤ k → k < i + fuel →
      waitForMedium present fuel i = some (k, mediumWaitTrace (k - i)) := by
  intro fuel
  induction fuel with
  | zero => intro i h1 h2; omega
  | succ f ih =>
    intro i h1 h2
    rw [waitForMedium]
    by_cases hik : i = k
    · subst hik
      rw [if_pos hk]
      simp [mediumWaitTrace]
    · have hlt : i < k := by omega
      rw [if_neg (by simp [hmin i hlt])]
      rw [ih (i + 1) (by omega) (by omega)]
      have hki : k - i = (k - (i + 1)) + 1 := by omega
      simp [hki, mediumWaitTrace, List.replicate_succ]

theorem waitForMedium_none {present : Nat → Bool} :
    ∀ {fuel i : Nat}, waitForMedium present fuel i = none →
      ∀ j, i ≤ j → j < i + fuel → present j = false := by
  intro fuel
  induction fuel with
  | zero => intro i _ j h1 h2; omega
  | succ f ih =>
    intro i h j h1 h2
    rw [waitForMedium] at h
    by_cases hp : present i
    · rw [if_pos hp] at h
      exact absurd h (by simp)
    · rw [if_neg hp] at h
      have hnone : waitForMedium present f (i + 1) = none := by
        cases hw : waitForMedium present f (i + 1) with
        | none => rfl
        | some r => rw [hw] at h; simp at h
      rcases Nat.eq_or_lt_of_le h1 with rfl | hj
      · cases hb : present i with
        | false => rfl
        | true => exact absurd hb hp
      · exact ih hnone j (by omega) (by omega)

theorem waitForMedium_events {present : Nat → Bool} :
    ∀ {fuel i k : Nat} {evs : List Ev},
      waitForMedium present fuel i = some (k, evs) →
      ∀ e ∈ evs,
        e = Ev.serial "No uSD card detected!" ∨ e = Ev.delayMs 1000 := by
  intro fuel
  induction fuel with
  | zero =>
    intro i k evs h
    simp [waitForMedium] at h
  | succ f ih =>
    intro i k evs h e he
    rw [waitForMedium] at h
    by_cases hp : present i
    · rw [if_pos hp] at h
      simp only [Option.some.injEq, Prod.mk.injEq] at h
      rw [← h.2] at he
      simp at he
    · rw [if_neg hp] at h
      rw [Option.map_eq_some'] at h
      obtain ⟨⟨k', evs'⟩, hw, hmk⟩ := h
      simp only [Prod.mk.injEq] at hmk
      rw [← hmk.2] at he
      simp only [List.mem_cons] at he
      rcases he with rfl | rfl | he
      · left; rfl
      · right; rfl
      · exact ih hw e he

theorem ledAfter_append (s : Bool) (l1 l2 : List Ev) :
    ledAfter s (l1 ++ l2) = ledAfter (ledAfter s l1) l2 := by
  induction l1 generalizing s with
  | nil => rfl
  | cons e l ih => cases e <;> simp [ledAfter, ih]

theorem ledAfter_of_wait_events {s : Bool} {l : List Ev}
    (h : ∀ e ∈ l,
      e = Ev.serial "No uSD card detected!" ∨ e = Ev.delayMs 1000) :
    ledAfter s l = s := by
  induction l with
  | nil => rfl
  | cons e l ih =>
    have he := h e (by simp)
    have hrest : ∀ e ∈ l,
        e = Ev.serial "No uSD card detected!" ∨ e = Ev.delayMs 1000 :=
      fun e he => h e (by simp [he])
    rcases he with rfl | rfl <;> simpa [ledAfter] using ih hrest

theorem count_eq_zero_of_wait_events {l : List Ev} {e : Ev}
    (h : ∀ x ∈ l,
      x = Ev.serial "No uSD card detected!" ∨ x = Ev.delayMs 1000)
    (h1 : e ≠ Ev.serial "No uSD card detected!")
    (h2 : e ≠ Ev.delayMs 1000) :
    l.count e = 0 := by
  rw [List.count_eq_zero]
  intro hmem
  rcases h e hmem with rfl | rfl
  · exact h1 rfl
  · exact h2 rfl

theorem print_time_data (t : Timestamp) :
    ∃ rest, (print_time t).data = '2' :: '0' :: rest := by
  have h20 : ("20" : String).data = ['2', '0'] := rfl
  simp only [print_time, String.data_append, h20, List.cons_append,
    List.nil_append, List.append_assoc]
  exact ⟨_, rfl⟩

theorem record_ne_header (t : Timestamp) (o a : String) :
    record (print_time t) o a ≠ CSV_HEADER := by
  obtain ⟨rest, hd⟩ := print_time_data t
  intro h
  have hdata : (record (print_time t) o a).data = CSV_HEADER.data :=
    congrArg String.data h
  simp only [record, String.data_append, hd, List.cons_append,
    List.append_assoc] at hdata
  have hT : CSV_HEADER.data =
      'T' :: "ime (PET),Object Temperature,Ambient Temperature".data := rfl
  rw [hT] at hdata
  exact absurd (List.head_eq_of_cons_eq hdata) (by decide)

theorem setup_fs_cases (ct : ℚ) (sOk mOk w : Bool) (fs : FS) :
    (setup ct sOk mOk w fs).fs = fs ∨
    (setup ct sOk mOk w fs).fs = ensureHeader w fs := by
  unfold setup
  split_ifs <;> simp

theorem ensureHeader_headerInv {fs : FS} (w : Bool) (h : headerInv fs) :
    headerInv (ensureHeader w fs) := by
  unfold ensureHeader
  by_cases hex : fs.fileExists = true
  · rw [if_pos hex]; exact h
  · rw [if_neg hex]
    by_cases hw : w = true
    · rw [if_pos hw]
      unfold headerInv
      refine ⟨[], rfl, ?_⟩
      simp
    · rw [if_neg hw]; exact h

theorem ensureHeader_true_fileExists (fs : FS) :
    (ensureHeader true fs).fileExists = true := by
  unfold ensureHeader
  by_cases hex : fs.fileExists = true
  · rw [if_pos hex]; exact hex
  · rw [if_neg hex]
    rfl

theorem setup_ready_iff {ct : ℚ} {sOk mOk w : Bool} {fs : FS} :
    (setup ct sOk mOk w fs).result = SetupResult.ready ↔
      ¬ ct ≤ -9999 ∧ sOk = true ∧ mOk = true ∧ w = true := by
  unfold setup
  split_ifs with h1 h2 h3 h4 <;> simp_all

theorem setup_ready_fs {ct : ℚ} {sOk mOk w : Bool} {fs : FS}
    (h : (setup ct sOk mOk w fs).result = SetupResult.ready) :
    (setup ct sOk mOk w fs).fs = ensureHeader w fs ∧
    (setup ct sOk mOk w fs).fs.fileExists = true ∧ w = true := by
  obtain ⟨h1, h2, h3, h4⟩ := setup_ready_iff.mp h
  subst h4
  unfold setup
  rw [if_neg h1, if_neg (by simp [h2]), if_neg (by simp [h3]),
    if_neg (by simp)]
  exact ⟨rfl, ensureHeader_true_fileExists fs, rfl⟩

theorem appendRecord_headerInv {fs : FS} (ok : Bool) {line : String}
    (hex : fs.fileExists = true) (h : headerInv fs)
    (hne : line ≠ CSV_HEADER) :
    headerInv (appendRecord fs ok line) ∧
    (appendRecord fs ok line).fileExists = true := by
  unfold appendRecord
  by_cases hok : ok = true
  · rw [if_pos hok]
    unfold headerInv at h ⊢
    rw [if_pos hex] at h
    obtain ⟨ds, hds, hall⟩ := h
    refine ⟨?_, rfl⟩
    simp only [if_pos]
    refine ⟨ds ++ [line], ?_, ?_⟩
    · rw [hds]; simp
    · intro l hl
      rcases List.mem_append.mp hl with h1 | h1
      · exact hall l h1
      · simp at h1; subst h1; exact hne
  · rw [if_neg hok]
    exact ⟨h, hex⟩

theorem reach_inv {fs : FS} {b : Bool} (h : Reach fs b) :
    headerInv fs ∧ (b = true → fs.fileExists = true) := by
  induction h with
  | init =>
    constructor
    · unfold headerInv FS.init
      simp
    · intro hb
      exact absurd hb (by simp)
  | powerCycleReady ct sOk mOk w hr hready ih =>
    obtain ⟨hfs, hex, hw⟩ := setup_ready_fs hready
    constructor
    · rw [hfs]
      exact ensureHeader_headerInv w ih.1
    · intro _
      exact hex
  | powerCycleHalt ct sOk mOk w hr hnready ih =>
    constructor
    · rcases setup_fs_cases ct sOk mOk w _ with hfs | hfs <;> rw [hfs]
      · exact ih.1
      · exact ensureHeader_headerInv w ih.1
    · intro hb
      exact absurd hb (by simp)
  | logIteration openOk t objT ambT hr ih =>
    have hex := ih.2 rfl
    have hp := appendRecord_headerInv openOk hex ih.1
      (record_ne_header t objT ambT)
    exact ⟨hp.1, fun _ => hp.2⟩

theorem print_time_length (t : Timestamp) :
    (print_time t).length =
      7 + (natStr t.year).length + (natStr t.month).length +
        (natStr t.day).length + (natStr t.hour).length +
        (natStr t.minute).length + (natStr t.second).length := by
  have h20 : ("20" : String).length = 2 := rfl
  have hdash : ("-" : String).length = 1 := rfl
  have hsp : (" " : String).length = 1 := rfl
  have hcolon : (":" : String).length = 1 := rfl
  simp [print_time, String.length_append, h20, hdash, hsp, hcolon]
  omega

/-! # Claim theorems -/

/-- Claim C3, as stated, is false: `print_time` does not zero-pad any
field, so the timestamp of 2024-04-08 03:09:05 renders as
`2024-4-8 3:9:5`, which has 14 characters, not 19. -/
theorem claim_C3_counterexample :
    validTimestamp ⟨24, 4, 8, 3, 9, 5⟩ ∧
    print_time ⟨24, 4, 8, 3, 9, 5⟩ = "2024-4-8 3:9:5" ∧
    (print_time ⟨24, 4, 8, 3, 9, 5⟩).length ≠ 19 := by
  refine ⟨by decide, by decide, by decide⟩

/-- Claim C3 (amended): for every valid Timestamp, the string produced by
the timestamp formatting function follows the pattern
`year-month-day hour:minute:second` with every field rendered unpadded;
it has exactly 19 characters (the width of `YYYY-MM-DD HH:MM:SS`) if and
only if all six clock fields are at least 10, i.e. render as two digits
each. -/
theorem claim_C3 (t : Timestamp) (h : validTimestamp t) :
    (print_time t).length = 19 ↔
      (10 ≤ t.year ∧ 10 ≤ t.month ∧ 10 ≤ t.day ∧ 10 ≤ t.hour ∧
        10 ≤ t.minute ∧ 10 ≤ t.second) := by
  obtain ⟨hy, hm1, hm2, hd1, hd2, hh, hmi, hs⟩ := h
  rw [print_time_length,
    natStr_length_le99 (show t.year ≤ 99 by omega),
    natStr_length_le99 (show t.month ≤ 99 by omega),
    natStr_length_le99 (show t.day ≤ 99 by omega),
    natStr_length_le99 (show t.hour ≤ 99 by omega),
    natStr_length_le99 (show t.minute ≤ 99 by omega),
    natStr_length_le99 (show t.second ≤ 99 by omega)]
  split_ifs <;> omega

/-- Witness for claim C3: the timestamp 2024-10-11 12:34:56 is valid, all
its fields render as two digits, and its formatted string indeed has 19
characters. -/
theorem claim_C3_witness :
    validTimestamp ⟨24, 10, 11, 12, 34, 56⟩ ∧
    (print_time ⟨24, 10, 11, 12, 34, 56⟩).length = 19 :=
  ⟨by decide, (claim_C3 ⟨24, 10, 11, 12, 34, 56⟩ (by decide)).mpr (by decide)⟩

/-- Claim C10: every clock and sensor operation performed by the main
sketch (in `setup()` and in every `loop()` iteration) is a read, while
the one-time calibration sketch is the program that writes the clock
time and the sensor emissivity. -/
theorem claim_C10 :
    ((mainSetupPeriphOps ++ mainLoopPeriphOps).all
      (fun op => op.access == Access.read)) = true ∧
    (calibratePeriphOps.any
      (fun op => op.periph == Periph.clock && op.access == Access.write))
      = true ∧
    (calibratePeriphOps.any
      (fun op =>
        op == ⟨Periph.sensor, Access.write, "writeEmissivity"⟩)) = true := by
  refine ⟨by decide, by decide, by decide⟩

/-- Claim C1: a successful append in the steady-state loop opens the
file once in append mode, writes exactly one line, closes the file, and
leaves the old contents untouched: if the file held the header plus N
data lines from N successful prior appends, it afterwards holds the
header plus those N lines in their original order followed by the new
record — N+1 data lines plus the header. -/
theorem claim_C1 (fs : FS) (ds : List String) (rec : String) (N : Nat)
    (hlines : fs.lines = CSV_HEADER :: ds) (hN : ds.length = N) :
    (appendPhase fs true rec).1.lines = CSV_HEADER :: (ds ++ [rec]) ∧
    (ds ++ [rec]).length = N + 1 ∧
    (appendPhase fs true rec).1.lines.take fs.lines.length = fs.lines ∧
    (appendPhase fs true rec).2.count Ev.fileOpen = 1 ∧
    (∀ l, Ev.fileWrite l ∈ (appendPhase fs true rec).2 ↔ l = rec) ∧
    (appendPhase fs true rec).2.getLast? = some Ev.fileClose := by
  have h1 : (appendPhase fs true rec).1.lines = fs.lines ++ [rec] := by
    simp [appendPhase, appendRecord]
  refine ⟨?_, ?_, ?_, ?_, ?_, ?_⟩
  · rw [h1, hlines]; simp
  · simp [hN]
  · rw [h1]; exact List.take_left _ _
  · rfl
  · intro l
    simp [appendPhase]
  · rfl

/-- Witness for claim C1: appending the record line `"r2"` to a file
holding the header and one prior data line `"r1"` yields the header
followed by exactly the two data lines in order. -/
theorem claim_C1_witness :
    (appendPhase ⟨true, [CSV_HEADER, "r1"]⟩ true "r2").1.lines =
      CSV_HEADER :: (["r1"] ++ ["r2"]) ∧
    (["r1"] ++ ["r2"]).length = 1 + 1 ∧
    (appendPhase ⟨true, [CSV_HEADER, "r1"]⟩ true "r2").1.lines.take
      (FS.mk true [CSV_HEADER, "r1"]).lines.length =
      (FS.mk true [CSV_HEADER, "r1"]).lines ∧
    (appendPhase ⟨true, [CSV_HEADER, "r1"]⟩ true "r2").2.count Ev.fileOpen
      = 1 ∧
    (∀ l, Ev.fileWrite l ∈ (appendPhase ⟨true, [CSV_HEADER, "r1"]⟩ true
      "r2").2 ↔ l = "r2") ∧
    (appendPhase ⟨true, [CSV_HEADER, "r1"]⟩ true "r2").2.getLast? =
      some Ev.fileClose :=
  claim_C1 ⟨true, [CSV_HEADER, "r1"]⟩ ["r1"] "r2" 1 rfl rfl

/-- Claim C8: the startup clock health probe fails — `setup` enters the
clock halt — exactly when the DS3231 temperature register reads a value
at or below the -9999 sentinel; any reading strictly above the sentinel
takes startup past the clock check. -/
theorem claim_C8 (clockTemp : ℚ) (sensorOk mediumOk writable : Bool)
    (fs : FS) :
    ((setup clockTemp sensorOk mediumOk writable fs).result =
        SetupResult.haltClock ↔ clockTemp ≤ -9999) ∧
    (-9999 < clockTemp →
      (setup clockTemp sensorOk mediumOk writable fs).result ≠
        SetupResult.haltClock) := by
  unfold setup
  constructor
  · split_ifs with h1 h2 h3 h4 <;> simp_all
  · intro hlt
    split_ifs with h1 h2 h3 h4 <;> simp_all
    linarith

/-- Witness for claim C8: a -10000 reading halts at the clock check and a
20 °C reading passes it. -/
theorem claim_C8_witness :
    ((setup (-10000) true true true FS.init).result =
      SetupResult.haltClock) ∧
    ((setup 20 true true true FS.init).result ≠ SetupResult.haltClock) :=
  ⟨(claim_C8 (-10000) true true true FS.init).1.mpr (by norm_num),
    (claim_C8 20 true true true FS.init).2 (by norm_num)⟩

/-- Claim C5: if any of the four startup checks fails (clock probe,
sensor initialization, storage-medium initialization, log-file open
test), the device ends `setup` in a permanent halt state: it never
reaches the steady-state loop (the post-setup trace is empty), the
indicator is still solid-on, and for failures before the storage step
(clock or sensor) the filesystem is untouched, so no log file is
created. -/
theorem claim_C5 (clockTemp : ℚ) (sensorOk mediumOk writable : Bool)
    (fs : FS)
    (h : clockTemp ≤ -9999 ∨ sensorOk = false ∨ mediumOk = false ∨
      writable = false) :
    (setup clockTemp sensorOk mediumOk writable fs).result ≠
      SetupResult.ready ∧
    (setup clockTemp sensorOk mediumOk writable fs).led = true ∧
    (∀ evs : List Ev,
      postSetupTrace (setup clockTemp sensorOk mediumOk writable fs) evs
        = []) ∧
    ((clockTemp ≤ -9999 ∨ sensorOk = false) →
      (setup clockTemp sensorOk mediumOk writable fs).fs = fs) := by
  unfold setup postSetupTrace
  split_ifs with h1 h2 h3 h4 <;> simp_all

/-- Witness for claim C5: with a healthy clock but a sensor that fails to
initialize, startup halts before creating any file, with the indicator
on. -/
theorem claim_C5_witness :
    (setup 20 false true true FS.init).result ≠ SetupResult.ready ∧
    (setup 20 false true true FS.init).led = true ∧
    (∀ evs : List Ev,
      postSetupTrace (setup 20 false true true FS.init) evs = []) ∧
    (((20 : ℚ) ≤ -9999 ∨ false = false) →
      (setup 20 false true true FS.init).fs = FS.init) :=
  claim_C5 20 false true true FS.init (Or.inr (Or.inl rfl))

/-- Claim C6: the steady-state presence loop blocks until the medium is
reported present. If the first successful presence check is the k-th one
(checks 0..k-1 fail), the loop exits at that check after emitting one
"No uSD card detected!" diagnostic followed by a 1-second delay per
failed check — for any observation bound large enough, so the retry is
unbounded and a missing medium never halts the device. The append step
is reached exactly when a presence check succeeds: an exit always
carries a successful check, and while no check has succeeded the loop is
still polling (every check seen so far failed). -/
theorem claim_C6 (present : Nat → Bool) (k : Nat)
    (hk : present k = true) (hmin : ∀ j, j < k → present j = false) :
    (∀ fuel, k < fuel →
      waitForMedium present fuel 0 = some (k, mediumWaitTrace k)) ∧
    (∀ fuel i evs, waitForMedium present fuel 0 = some (i, evs) →
      present i = true) ∧
    (∀ fuel, waitForMedium present fuel 0 = none →
      ∀ j, j < fuel → present j = false) := by
  refine ⟨?_, ?_, ?_⟩
  · intro fuel hfuel
    have h := waitForMedium_exit hk hmin fuel 0 (by omega) (by omega)
    simpa using h
  · intro fuel i evs h
    exact waitForMedium_some_present h
  · intro fuel h j hj
    exact waitForMedium_none h j (by omega) (by omega)

/-- Witness for claim C6: with a medium absent for the first two checks
and present from the third on, the loop exits at check 2 after exactly
two diagnostic/1-second-delay rounds. -/
theorem claim_C6_witness :
    waitForMedium (fun j => decide (2 ≤ j)) 4 0 =
      some (2, mediumWaitTrace 2) :=
  (claim_C6 (fun j => decide (2 ≤ j)) 2 (by decide) (by decide)).1 4
    (by omega)

/-- Claim C7: in a steady-state iteration where the presence loop
succeeded but the append-mode open fails, the iteration still completes
(`some`, not a halt), the filesystem is returned unchanged (the reading
is dropped), the file is opened exactly once (the write is never retried
within the iteration), no line is written, the failure is flagged on the
indicator, and the iteration ends with the 60-second delay to the next
scheduled cycle. -/
theorem claim_C7 (fs : FS) (t : Timestamp) (objT ambT : String)
    (present : Nat → Bool) (fuel k : Nat) (wEvs : List Ev)
    (hwait : waitForMedium present fuel 0 = some (k, wEvs)) :
    ∃ evs,
      loopIteration fs t objT ambT present fuel false = some (fs, evs) ∧
      evs.count Ev.fileOpen = 1 ∧
      (∀ l, Ev.fileWrite l ∉ evs) ∧
      Ev.ledOn ∈ evs ∧
      evs.getLast? = some (Ev.delayMs 60000) := by
  have hwn := waitForMedium_events hwait
  refine ⟨Ev.serial (record (print_time t) objT ambT) ::
      (wEvs ++
        [Ev.fileOpen, Ev.serial "Could not open datalog.csv!",
          Ev.ledOn, Ev.delayMs 200, Ev.ledOff, Ev.delayMs 200,
          Ev.ledOn, Ev.delayMs 200, Ev.ledOff, Ev.fileClose] ++
        [Ev.delayMs 60000]), ?_, ?_, ?_, ?_, ?_⟩
  · rw [loopIteration, hwait]
    rfl
  · have hz : wEvs.count Ev.fileOpen = 0 :=
      count_eq_zero_of_wait_events hwn (by simp) (by simp)
    simp [List.count_cons, List.count_append, hz]
  · intro l hmem
    have hnw : Ev.fileWrite l ∉ wEvs := by
      intro h
      rcases hwn _ h with h' | h' <;> exact Ev.noConfusion h'
    simp [List.mem_cons, List.mem_append, hnw] at hmem
  · simp
  · have hshape :
        Ev.serial (record (print_time t) objT ambT) ::
          (wEvs ++
            [Ev.fileOpen, Ev.serial "Could not open datalog.csv!",
              Ev.ledOn, Ev.delayMs 200, Ev.ledOff, Ev.delayMs 200,
              Ev.ledOn, Ev.delayMs 200, Ev.ledOff, Ev.fileClose] ++
            [Ev.delayMs 60000]) =
        (Ev.serial (record (print_time t) objT ambT) ::
          (wEvs ++
            [Ev.fileOpen, Ev.serial "Could not open datalog.csv!",
              Ev.ledOn, Ev.delayMs 200, Ev.ledOff, Ev.delayMs 200,
              Ev.ledOn, Ev.delayMs 200, Ev.ledOff, Ev.fileClose])) ++
          [Ev.delayMs 60000] := by
      simp
    rw [hshape]
    exact List.getLast?_concat _

/-- Witness for claim C7: a concrete failed-append iteration (medium
present at the first check, file holding only the header) completes with
the file unchanged, one open attempt, no write, and the indicator
flagged. -/
theorem claim_C7_witness :
    ∃ evs,
      loopIteration ⟨true, [CSV_HEADER]⟩ ⟨24, 4, 8, 3, 9, 5⟩ "26.31"
          "24.17" (fun _ => true) 1 false =
        some (⟨true, [CSV_HEADER]⟩, evs) ∧
      evs.count Ev.fileOpen = 1 ∧
      (∀ l, Ev.fileWrite l ∉ evs) ∧
      Ev.ledOn ∈ evs ∧
      evs.getLast? = some (Ev.delayMs 60000) :=
  claim_C7 ⟨true, [CSV_HEADER]⟩ ⟨24, 4, 8, 3, 9, 5⟩ "26.31" "24.17"
    (fun _ => true) 1 0 [] rfl

/-- Claim C4, as stated, is false: in a concrete steady-state iteration
whose presence check succeeds at once but whose append-mode open fails,
the failure branch drives the LED HIGH,200ms,LOW,200ms,HIGH,200ms,LOW —
the indicator turns on only twice, so the trace holds two on/off blink
pulses, not three. -/
theorem claim_C4_counterexample :
    ((loopIteration ⟨true, [CSV_HEADER]⟩ ⟨24, 4, 8, 3, 9, 5⟩ "26.31"
        "24.17" (fun _ => true) 1 false).map
      (fun r => r.2.count Ev.ledOn)) = some 2 ∧
    ((loopIteration ⟨true, [CSV_HEADER]⟩ ⟨24, 4, 8, 3, 9, 5⟩ "26.31"
        "24.17" (fun _ => true) 1 false).map
      (fun r => r.2.count Ev.ledOn)) ≠ some 3 := by
  refine ⟨by decide, by decide⟩

/-- Claim C4 (amended): in every steady-state iteration in which the
medium-presence check succeeds but the append-mode open of the log file
fails, the indicator performs exactly two on/off blink pulses of ~200ms
per phase (HIGH, 200ms, LOW, 200ms, HIGH, 200ms, LOW) and then remains
off, and no line is written to the log file. -/
theorem claim_C4 (fs : FS) (t : Timestamp) (objT ambT : String)
    (present : Nat → Bool) (fuel k : Nat) (wEvs : List Ev)
    (hwait : waitForMedium present fuel 0 = some (k, wEvs)) :
    ∃ evs,
      loopIteration fs t objT ambT present fuel false = some (fs, evs) ∧
      evs = Ev.serial (record (print_time t) objT ambT) ::
        (wEvs ++
          [Ev.fileOpen, Ev.serial "Could not open datalog.csv!",
            Ev.ledOn, Ev.delayMs 200, Ev.ledOff, Ev.delayMs 200,
            Ev.ledOn, Ev.delayMs 200, Ev.ledOff, Ev.fileClose] ++
          [Ev.delayMs 60000]) ∧
      evs.count Ev.ledOn = 2 ∧
      evs.count Ev.ledOff = 2 ∧
      ledAfter false evs = false ∧
      (∀ l, Ev.fileWrite l ∉ evs) := by
  have hwn := waitForMedium_events hwait
  refine ⟨Ev.serial (record (print_time t) objT ambT) ::
      (wEvs ++
        [Ev.fileOpen, Ev.serial "Could not open datalog.csv!",
          Ev.ledOn, Ev.delayMs 200, Ev.ledOff, Ev.delayMs 200,
          Ev.ledOn, Ev.delayMs 200, Ev.ledOff, Ev.fileClose] ++
        [Ev.delayMs 60000]), ?_, rfl, ?_, ?_, ?_, ?_⟩
  · rw [loopIteration, hwait]
    rfl
  · have hz : wEvs.count Ev.ledOn = 0 :=
      count_eq_zero_of_wait_events hwn (by simp) (by simp)
    simp [List.count_cons, List.count_append, hz]
  · have hz : wEvs.count Ev.ledOff = 0 :=
      count_eq_zero_of_wait_events hwn (by simp) (by simp)
    simp [List.count_cons, List.count_append, hz]
  · rw [show Ev.serial (record (print_time t) objT ambT) ::
        (wEvs ++
          [Ev.fileOpen, Ev.serial "Could not open datalog.csv!",
            Ev.ledOn, Ev.delayMs 200, Ev.ledOff, Ev.delayMs 200,
            Ev.ledOn, Ev.delayMs 200, Ev.ledOff, Ev.fileClose] ++
          [Ev.delayMs 60000]) =
        [Ev.serial (record (print_time t) objT ambT)] ++ wEvs ++
          ([Ev.fileOpen, Ev.serial "Could not open datalog.csv!",
            Ev.ledOn, Ev.delayMs 200, Ev.ledOff, Ev.delayMs 200,
            Ev.ledOn, Ev.delayMs 200, Ev.ledOff, Ev.fileClose] ++
          [Ev.delayMs 60000]) from by simp]
    rw [ledAfter_append, ledAfter_append, ledAfter_append]
    rw [show ledAfter false [Ev.serial (record (print_time t) objT ambT)]
        = false from rfl]
    rw [ledAfter_of_wait_events hwn]
    rfl
  · intro l hmem
    have hnw : Ev.fileWrite l ∉ wEvs := by
      intro h
      rcases hwn _ h with h' | h' <;> exact Ev.noConfusion h'
    simp [List.mem_cons, List.mem_append, hnw] at hmem

/-- Witness for claim C4: a concrete failed-append iteration shows the
two-pulse indicator signal with the LED off afterwards and no write. -/
theorem claim_C4_witness :
    ∃ evs,
      loopIteration ⟨true, [CSV_HEADER]⟩ ⟨24, 10, 11, 12, 34, 56⟩ "26.31"
          "24.17" (fun _ => true) 1 false =
        some (⟨true, [CSV_HEADER]⟩, evs) ∧
      evs = Ev.serial (record
          (print_time ⟨24, 10, 11, 12, 34, 56⟩) "26.31" "24.17") ::
        (([] : List Ev) ++
          [Ev.fileOpen, Ev.serial "Could not open datalog.csv!",
            Ev.ledOn, Ev.delayMs 200, Ev.ledOff, Ev.delayMs 200,
            Ev.ledOn, Ev.delayMs 200, Ev.ledOff, Ev.fileClose] ++
          [Ev.delayMs 60000]) ∧
      evs.count Ev.ledOn = 2 ∧
      evs.count Ev.ledOff = 2 ∧
      ledAfter false evs = false ∧
      (∀ l, Ev.fileWrite l ∉ evs) :=
  claim_C4 ⟨true, [CSV_HEADER]⟩ ⟨24, 10, 11, 12, 34, 56⟩ "26.31" "24.17"
    (fun _ => true) 1 0 [] rfl

/-- Claim C9: `loop()` copies the formatted record into the fixed
32-byte `data_str` stack buffer with `strcpy`, which writes the record's
characters plus a NUL terminator. The copy stays within the buffer's
bounds — and the buffer then holds exactly the formatted record —
precisely when the record is at most 31 characters long; any record
longer than 31 characters makes the copy write past the end of the
buffer. The record's length is the timestamp length plus the two
temperature-string lengths plus the two comma separators, and a valid
reading exists (a 19-character timestamp with two signed multi-digit
temperatures in the default two-decimal rendering) whose record has 33
characters, exceeding the bound. -/
theorem claim_C9 :
    (∀ data : String, strcpyInBufBounds data ↔ data.length ≤ 31) ∧
    (∀ data : String, data.length ≤ 31 → bufContents data = some data) ∧
    (∀ data : String, 31 < data.length →
      BUF_LEN < strcpyWrites data ∧ bufContents data = none) ∧
    (∀ (t : Timestamp) (objT ambT : String),
      (record (print_time t) objT ambT).length =
        (print_time t).length + objT.length + ambT.length + 2) ∧
    (∃ t : Timestamp, validTimestamp t ∧
      (print_time t).length = 19 ∧
      floatStr true 12 34 = "-12.34" ∧
      (record (print_time t) (floatStr true 12 34)
        (floatStr true 23 45)).length = 33) := by
  refine ⟨?_, ?_, ?_, ?_, ?_⟩
  · intro data
    unfold strcpyInBufBounds strcpyWrites BUF_LEN
    omega
  · intro data h
    unfold bufContents strcpyWrites BUF_LEN
    rw [if_pos (by omega)]
  · intro data h
    unfold bufContents strcpyWrites BUF_LEN
    exact ⟨by omega, by rw [if_neg (by omega)]⟩
  · intro t objT ambT
    have hc : ("," : String).length = 1 := rfl
    simp [record, String.length_append, hc]
    omega
  · exact ⟨⟨24, 10, 11, 12, 34, 56⟩, by decide, by decide, by decide,
      by decide⟩

/-- Witness for claim C9: a 31-character record stays in bounds, and the
33-character record of the reading above overflows the buffer. -/
theorem claim_C9_witness :
    strcpyInBufBounds "2024-10-11 12:34:56,26.31,24.17" ∧
    bufContents (record (print_time ⟨24, 10, 11, 12, 34, 56⟩)
      (floatStr true 12 34) (floatStr true 23 45)) = none :=
  ⟨(claim_C9.1 "2024-10-11 12:34:56,26.31,24.17").mpr (by decide),
    (claim_C9.2.2.1 (record (print_time ⟨24, 10, 11, 12, 34, 56⟩)
      (floatStr true 12 34) (floatStr true 23 45)) (by decide)).2⟩

/-- Claim C2: across the lifetime of one medium, with arbitrarily many
power cycles, a successful startup writes the header exactly when the
file did not previously exist, and in every reachable state in which the
file exists, its first line is the header and the header occurs exactly
once in the file — it is never rewritten or duplicated. -/
theorem claim_C2 :
    (∀ (ct : ℚ) (sOk mOk w : Bool) (fs : FS),
      (setup ct sOk mOk w fs).result = SetupResult.ready →
      ((setup ct sOk mOk w fs).wroteHeader = true ↔
        fs.fileExists = false)) ∧
    (∀ (fs : FS) (b : Bool), Reach fs b → fs.fileExists = true →
      fs.lines.head? = some CSV_HEADER ∧
      fs.lines.count CSV_HEADER = 1) := by
  constructor
  · intro ct sOk mOk w fs h
    obtain ⟨h1, h2, h3, h4⟩ := setup_ready_iff.mp h
    subst h4
    unfold setup
    rw [if_neg h1, if_neg (by simp [h2]), if_neg (by simp [h3]),
      if_neg (by simp)]
    simp
  · intro fs b hr hex
    obtain ⟨hinv, _⟩ := reach_inv hr
    unfold headerInv at hinv
    rw [if_pos hex] at hinv
    obtain ⟨ds, hds, hall⟩ := hinv
    rw [hds]
    refine ⟨rfl, ?_⟩
    rw [List.count_cons_self]
    have hz : ds.count CSV_HEADER = 0 :=
      List.count_eq_zero.mpr (fun hmem => (hall _ hmem) rfl)
    rw [hz]

/-- Witness for claim C2: a first successful startup on an empty medium
writes the header (the file did not exist), and the resulting file has
the header as its only header line. -/
theorem claim_C2_witness :
    ((setup 20 true true true FS.init).wroteHeader = true ↔
      FS.init.fileExists = false) ∧
    ((setup 20 true true true FS.init).fs.lines.head? = some CSV_HEADER ∧
      (setup 20 true true true FS.init).fs.lines.count CSV_HEADER = 1) :=
  ⟨claim_C2.1 20 true true true FS.init (by decide),
    claim_C2.2 (setup 20 true true true FS.init).fs true
      (Reach.powerCycleReady 20 true true true Reach.init (by decide))
      (by decide)⟩

end Tarantula
